import Mathlib

/-!
Shallow embedding of the Filemanager2 extraction/retry/similarity core.

Each definition below translates one Python function or class from the
repository (file and symbol named in its doc comment).  Machine state that
Python mutates in place (circuit-breaker counters, ORM rows, the FAISS
index) is passed explicitly; exceptions become `Except` values; wall-clock
times and float quantities are modelled as rationals.
-/

/-- The exception classes of `utils/error_handlers.py` plus the builtin /
`requests` exceptions that the retry and handler decorators catch.  Each
constructor carries the message (`str(e)`). -/
inductive PyError : Type
  | extractionError (msg : String)
  | tikaConnectionError (msg : String)
  | fileProcessingError (msg : String)
  | databaseError (msg : String)
  | retryableError (msg : String)
  | nonRetryableError (msg : String)
  | requestException (msg : String)
  | connectionError (msg : String)
  | timeout (msg : String)
  | valueError (msg : String)
  | typeError (msg : String)
  | fileNotFoundError (msg : String)
  | permissionError (msg : String)
  | osError (msg : String)
  deriving DecidableEq, Repr

/-- `str(e)`: the message carried by the exception. -/
def PyError.msg : PyError → String
  | .extractionError m => m
  | .tikaConnectionError m => m
  | .fileProcessingError m => m
  | .databaseError m => m
  | .retryableError m => m
  | .nonRetryableError m => m
  | .requestException m => m
  | .connectionError m => m
  | .timeout m => m
  | .valueError m => m
  | .typeError m => m
  | .fileNotFoundError m => m
  | .permissionError m => m
  | .osError m => m

/-- The first catch clause of `retry_with_backoff`:
`except (TikaConnectionError, RequestException, ConnectionError, Timeout)`. -/
def retryableCatch : PyError → Bool
  | .tikaConnectionError _ => true
  | .requestException _ => true
  | .connectionError _ => true
  | .timeout _ => true
  | _ => false

/-- The second catch clause of `retry_with_backoff`:
`except (NonRetryableError, ValueError, TypeError)`. -/
def nonRetryableCatch : PyError → Bool
  | .nonRetryableError _ => true
  | .valueError _ => true
  | .typeError _ => true
  | _ => false

/-- Parameters of `retry_with_backoff` (`utils/error_handlers.py`), with the
Python defaults. -/
structure RetryConfig where
  max_retries : Nat := 3
  base_delay : ℚ := 1
  max_delay : ℚ := 60
  exponential_base : ℚ := 2
  jitter : Bool := true

/-- The delay computed before retry number `attempt + 1`:
`delay = min(base_delay * exponential_base ** attempt, max_delay)`, then
`delay = delay * (0.5 + random.random() * 0.5)` when `jitter` is set.
`rand attempt` models the `random.random()` value drawn at that attempt. -/
def backoffDelay (cfg : RetryConfig) (rand : Nat → ℚ) (attempt : Nat) : ℚ :=
  let delay := min (cfg.base_delay * cfg.exponential_base ^ attempt) cfg.max_delay
  if cfg.jitter then delay * (1/2 + rand attempt * (1/2)) else delay

/-- Observable outcome of one run of the `retry_with_backoff` wrapper:
the returned value or raised exception, the list of `time.sleep` delays in
order, and how many times the wrapped function was invoked. -/
structure RetryTrace (α : Type) where
  result : Except PyError α
  sleeps : List ℚ
  calls : Nat

/-- The `for attempt in range(max_retries + 1)` loop body of the wrapper in
`retry_with_backoff`.  `fn n` is the outcome of the `n`-th invocation of the
wrapped function; `fuel` is the number of loop iterations remaining
(initially `max_retries + 1`), so the `fuel = 0` branch is the trailing
`raise last_exception`, unreachable from the top-level entry. -/
def retryGo (cfg : RetryConfig) (fn : Nat → Except PyError α) (rand : Nat → ℚ) :
    Nat → Nat → RetryTrace α
  | _, 0 => ⟨Except.error (PyError.extractionError "unreachable"), [], 0⟩
  | attempt, fuel + 1 =>
    match fn attempt with
    | Except.ok a => ⟨Except.ok a, [], 1⟩
    | Except.error e =>
      if retryableCatch e then
        if attempt == cfg.max_retries then
          ⟨Except.error (PyError.retryableError
              ("Failed after " ++ toString cfg.max_retries ++ " attempts: " ++ e.msg)),
            [], 1⟩
        else
          let d := backoffDelay cfg rand attempt
          let t := retryGo cfg fn rand (attempt + 1) fuel
          ⟨t.result, d :: t.sleeps, t.calls + 1⟩
      else if nonRetryableCatch e then
        ⟨Except.error (PyError.nonRetryableError e.msg), [], 1⟩
      else
        ⟨Except.error (PyError.extractionError e.msg), [], 1⟩

/-- `retry_with_backoff` (`utils/error_handlers.py`): run the decorated
function through the retry loop starting at attempt 0. -/
def retry_with_backoff (cfg : RetryConfig) (fn : Nat → Except PyError α)
    (rand : Nat → ℚ) : RetryTrace α :=
  retryGo cfg fn rand 0 (cfg.max_retries + 1)

/-- `CircuitBreaker` (`utils/error_handlers.py`): constructor defaults and
mutable fields.  `state` is the Python string field
(`"closed"`, `"open"`, `"half-open"`); times are rationals. -/
structure CircuitBreaker where
  failure_threshold : Nat := 5
  recovery_timeout : ℚ := 60
  failure_count : Nat := 0
  last_failure_time : Option ℚ := none
  state : String := "closed"
  deriving DecidableEq, Repr

/-- `CircuitBreaker._should_attempt_reset`:
`last_failure_time is None`, or `time.time() - last_failure_time >= recovery_timeout`. -/
def CircuitBreaker.shouldAttemptReset (cb : CircuitBreaker) (now : ℚ) : Bool :=
  match cb.last_failure_time with
  | none => true
  | some t => decide (cb.recovery_timeout ≤ now - t)

/-- `CircuitBreaker._on_success`: reset the counter, close the breaker. -/
def CircuitBreaker.onSuccess (cb : CircuitBreaker) : CircuitBreaker :=
  { cb with failure_count := 0, state := "closed" }

/-- `CircuitBreaker._on_failure`: increment the counter, stamp the failure
time, open once the counter reaches the threshold. -/
def CircuitBreaker.onFailure (cb : CircuitBreaker) (now : ℚ) : CircuitBreaker :=
  let cb1 := { cb with failure_count := cb.failure_count + 1,
                       last_failure_time := some now }
  if cb1.failure_threshold ≤ cb1.failure_count then { cb1 with state := "open" } else cb1

/-- Observable outcome of one `CircuitBreaker.call`: the updated breaker, the
returned value or raised exception, and whether the wrapped function was
actually invoked. -/
structure CallResult (α : Type) where
  breaker : CircuitBreaker
  result : Except PyError α
  invoked : Bool

/-- `CircuitBreaker.call`: in `"open"`, either move to `"half-open"` (when a
reset attempt is due) and invoke, or raise
`TikaConnectionError("Circuit breaker is open")` without invoking; otherwise
invoke and route the outcome through `_on_success` / `_on_failure` (the
exception is re-raised).  `outcome` is what the wrapped function would
return or raise if invoked; `now` is `time.time()`. -/
def CircuitBreaker.call (cb : CircuitBreaker) (now : ℚ) (outcome : Except PyError α) :
    CallResult α :=
  if cb.state == "open" && !(cb.shouldAttemptReset now) then
    ⟨cb, Except.error (PyError.tikaConnectionError "Circuit breaker is open"), false⟩
  else
    let cb1 := if cb.state == "open" then { cb with state := "half-open" } else cb
    match outcome with
    | Except.ok a => ⟨cb1.onSuccess, Except.ok a, true⟩
    | Except.error e => ⟨cb1.onFailure now, Except.error e, true⟩

/-- Fold a sequence of timed call outcomes through the breaker, keeping only
its evolving state. -/
def callFold (cb : CircuitBreaker) (events : List (ℚ × Except PyError Unit)) :
    CircuitBreaker :=
  events.foldl (fun c e => (c.call e.1 e.2).breaker) cb

/-- A freshly constructed `CircuitBreaker(failure_threshold, recovery_timeout)`. -/
def CircuitBreaker.fresh (ft : Nat) (rt : ℚ) : CircuitBreaker :=
  { failure_threshold := ft, recovery_timeout := rt }

/-- `handle_file_errors` (`utils/error_handlers.py`), viewed as a transformer
on the wrapped call's outcome: `FileNotFoundError` / `PermissionError` become
`NonRetryableError`, other `OSError`s become `FileProcessingError`, and any
other exception is rewrapped as `FileProcessingError(str(e))`. -/
def handle_file_errors : Except PyError α → Except PyError α
  | Except.ok a => Except.ok a
  | Except.error e =>
    match e with
    | PyError.fileNotFoundError m =>
      Except.error (PyError.nonRetryableError ("File not found: " ++ m))
    | PyError.permissionError m =>
      Except.error (PyError.nonRetryableError ("Permission denied: " ++ m))
    | PyError.osError m =>
      Except.error (PyError.fileProcessingError ("File processing failed: " ++ m))
    | e => Except.error (PyError.fileProcessingError e.msg)

/-- `handle_tika_errors` (`utils/error_handlers.py`): `ConnectionError`,
`Timeout` and other `RequestException`s become `TikaConnectionError`, and any
other exception is rewrapped as `ExtractionError(str(e))`. -/
def handle_tika_errors : Except PyError α → Except PyError α
  | Except.ok a => Except.ok a
  | Except.error e =>
    match e with
    | PyError.connectionError m =>
      Except.error (PyError.tikaConnectionError ("Failed to connect to Tika server: " ++ m))
    | PyError.timeout m =>
      Except.error (PyError.tikaConnectionError ("Tika server timeout: " ++ m))
    | PyError.requestException m =>
      Except.error (PyError.tikaConnectionError ("Tika request failed: " ++ m))
    | e => Except.error (PyError.extractionError e.msg)

/-- One row of the `file_embeddings` table (`models/file.py`,
`FileEmbedding`): the pickled vector keyed by `file_id`. -/
structure EmbeddingRow where
  file_id : Int
  embedding : List ℚ
  deriving DecidableEq, Repr

/-- Joint state of the `file_embeddings` table and the FAISS flat index kept
by `EmbeddingsService` (`services/embeddings.py`).  `index` is the list of
vectors in insertion order (`IndexFlatL2` assigns sequential positions). -/
structure EmbeddingsState where
  rows : List EmbeddingRow
  index : List (List ℚ)
  deriving DecidableEq, Repr

/-- The `INSERT ... ON CONFLICT (file_id) DO UPDATE SET embedding = ...`
statement run by `store_embedding`: update the existing row for `file_id`
if there is one, else append a new row. -/
def upsertRow (rows : List EmbeddingRow) (fid : Int) (emb : List ℚ) :
    List EmbeddingRow :=
  if rows.any (fun r => r.file_id == fid) then
    rows.map (fun r => if r.file_id == fid then { r with embedding := emb } else r)
  else
    rows ++ [⟨fid, emb⟩]

/-- `EmbeddingsService.store_embedding` (`services/embeddings.py`): upsert the
database row, then `self.index.add(...)`, which appends the vector at the
next sequential position of the FAISS index (and persist the index). -/
def store_embedding (s : EmbeddingsState) (fid : Int) (emb : List ℚ) :
    EmbeddingsState :=
  { rows := upsertRow s.rows fid emb, index := s.index ++ [emb] }

/-- Run a sequence of `store_embedding` calls. -/
def storeAll (s : EmbeddingsState) (ops : List (Int × List ℚ)) : EmbeddingsState :=
  ops.foldl (fun st p => store_embedding st p.1 p.2) s

/-- One row of the `extraction_tasks` table
(`models/content_extraction.py`, `ExtractionTask`): defaults
`status="pending"`, `retry_count=0`, `max_retries=3`. -/
structure TaskRow where
  status : String := "pending"
  retry_count : Nat := 0
  max_retries : Nat := 3
  error_message : Option String := none
  started_at : Option ℚ := none
  completed_at : Option ℚ := none
  deriving DecidableEq, Repr

/-- The status update at the top of the `extract_content` task
(`tasks/content_extraction.py`): the fetched task row is set to
`status = "processing"`, `started_at = datetime.utcnow()` and committed,
with no check of the row's current status. -/
def markProcessingStep (t : TaskRow) (now : ℚ) : TaskRow :=
  { t with status := "processing", started_at := some now }

/-- One execution of the `extract_content` task body
(`tasks/content_extraction.py`) as it affects the task row.  `outcome` is
`none` when extraction succeeds and `some err` when the body raises with
message `err`.  Returns the committed row and whether `self.retry` was
raised (`retry_count < max_retries` after the increment). -/
def attemptStep (t : TaskRow) (now : ℚ) (outcome : Option String) :
    TaskRow × Bool :=
  let t1 := markProcessingStep t now
  match outcome with
  | none =>
    ({ t1 with status := "completed", completed_at := some now }, false)
  | some err =>
    let t2 := { t1 with status := "failed", error_message := some err,
                        retry_count := t1.retry_count + 1 }
    (t2, decide (t2.retry_count < t2.max_retries))

/-- The Celery-driven attempt loop for one job: the task is re-executed as
long as `self.retry` is raised and outcomes remain. -/
def runJob (t : TaskRow) : List (ℚ × Option String) → TaskRow
  | [] => t
  | o :: os =>
    let r := attemptStep t o.1 o.2
    if r.2 then runJob r.1 os else r.1

/-- The sequence of committed snapshots of the task row along the attempt
loop: each attempt commits the `"processing"` row and then the
`"completed"`/`"failed"` row. -/
def runJobTrace (t : TaskRow) : List (ℚ × Option String) → List TaskRow
  | [] => []
  | o :: os =>
    let r := attemptStep t o.1 o.2
    if r.2 then markProcessingStep t o.1 :: r.1 :: runJobTrace r.1 os
    else [markProcessingStep t o.1, r.1]

/-- Terminal task states in the sense of the design: `"completed"`, or
`"failed"` once `retry_count` has reached `max_retries` (a `"failed"` row
that will still be retried is not terminal). -/
def isTerminal (t : TaskRow) : Bool :=
  t.status == "completed" ||
    (t.status == "failed" && decide (t.max_retries ≤ t.retry_count))

/-- One row of the `extracted_content` table
(`models/content_extraction.py`, `ExtractedContent`); `content` is a
nullable `Text` column. -/
structure ExtractedContentRow where
  file_id : Int
  content : Option String
  extraction_status : String
  error_message : Option String
  deriving DecidableEq, Repr

/-- One row of the `search_index` table (`models/content_extraction.py`,
`SearchIndex`); `file_id` carries a unique constraint. -/
structure SearchIndexRow where
  file_id : Int
  content : Option String
  indexed_at : ℚ
  deriving DecidableEq, Repr

/-- The two tables touched by the `index_content` task. -/
structure SearchDB where
  extracted : List ExtractedContentRow
  search : List SearchIndexRow
  deriving DecidableEq, Repr

/-- The query at the top of `index_content`: the `extracted_content` row for
`file_id` with `extraction_status == "completed"`, if any. -/
def findExtractedCompleted (db : SearchDB) (fid : Int) : Option ExtractedContentRow :=
  db.extracted.find? (fun r => r.file_id == fid && r.extraction_status == "completed")

/-- Python truthiness of the nullable `content` column
(`not extracted_content.content`): `NULL` and `""` are falsy. -/
def contentTruthy : Option String → Bool
  | none => false
  | some s => !(s == "")

/-- `index_content` (`tasks/content_extraction.py`): skip when no completed
`extracted_content` row exists or its content is falsy; otherwise update the
existing `search_index` row for `file_id` (setting `content` and
`indexed_at`) or insert a new one (`indexed_at` defaults to now).  Returns
the updated tables and the task's `"status"` result field. -/
def index_content (db : SearchDB) (fid : Int) (now : ℚ) : SearchDB × String :=
  match findExtractedCompleted db fid with
  | none => (db, "skipped")
  | some ec =>
    if !(contentTruthy ec.content) then (db, "skipped")
    else
      match db.search.find? (fun r => r.file_id == fid) with
      | some _ =>
        ({ db with search := db.search.map (fun r =>
            if r.file_id == fid then { r with content := ec.content, indexed_at := now }
            else r) }, "completed")
      | none =>
        ({ db with search := db.search ++ [⟨fid, ec.content, now⟩] }, "completed")

/-- The `search_index` rows for a given `file_id`. -/
def searchRowsFor (db : SearchDB) (fid : Int) : List SearchIndexRow :=
  db.search.filter (fun r => r.file_id == fid)

/-- One row of the `files` table as read by the similarity service
(`models/file.py`, `File`): the id, name, the `has_embeddings` flag and the
result of `get_embedding()` (`none` when no `FileEmbedding` row exists). -/
structure FileRec where
  id : Int
  name : String
  has_embeddings : Bool
  embedding : Option (List ℚ)
  deriving DecidableEq, Repr

/-- `db.query(File).filter(File.id == fid).first()`. -/
def findFile (files : List FileRec) (fid : Int) : Option FileRec :=
  files.find? (fun f => f.id == fid)

/-- One element of the list returned by
`SimilarityService.calculate_similarity` (`services/similarity.py`). -/
structure SimEntry where
  file_id : Int
  file_name : String
  similarity_score : ℚ
  distance : ℚ
  deriving DecidableEq, Repr

/-- The descending-score order used by
`sorted(results, key=lambda x: x["similarity_score"], reverse=True)`. -/
def simDesc (a b : SimEntry) : Prop :=
  b.similarity_score ≤ a.similarity_score

instance : DecidableRel simDesc := fun a b =>
  inferInstanceAs (Decidable (b.similarity_score ≤ a.similarity_score))

instance : IsTotal SimEntry simDesc :=
  ⟨fun a b => (le_total b.similarity_score a.similarity_score)⟩

instance : IsTrans SimEntry simDesc :=
  ⟨fun _ _ _ hab hbc => le_trans hbc hab⟩

/-- `SimilarityService.calculate_similarity` (`services/similarity.py`),
Python default `limit: int = 10`.  `searchRes` is the `(index, distance)`
list produced by `self.embeddings_service.index.search(target, limit + 1)`
(the FAISS collaborator, outside this repository): positions are compared
directly against file ids, `-1` marks padding.  Skip the padding and the
queried id, keep entries with `1 / (1 + distance) >= threshold` whose file
row exists, sort by descending score and truncate to `limit`. -/
def calculate_similarity (files : List FileRec) (searchRes : List (Int × ℚ))
    (file_id : Int) (threshold : ℚ) (limit : Nat) : List SimEntry :=
  match findFile files file_id with
  | none => []
  | some file =>
    if !file.has_embeddings then []
    else
      match file.embedding with
      | none => []
      | some _ =>
        let results := searchRes.filterMap (fun p =>
          if p.1 == -1 || p.1 == file_id then none
          else
            let similarity := 1 / (1 + p.2)
            if threshold ≤ similarity then
              (findFile files p.1).map (fun sf =>
                { file_id := sf.id, file_name := sf.name,
                  similarity_score := similarity, distance := p.2 })
            else none)
        (List.insertionSort simDesc results).take limit

/-- `SimilarityService.calculate_similarity_matrix`
(`services/similarity.py`): apply `calculate_similarity` per id with the
callee's default `limit = 10` (no limit argument is passed).
`searchResFor fid` is the index search result for file `fid`'s vector. -/
def calculate_similarity_matrix (files : List FileRec)
    (searchResFor : Int → List (Int × ℚ)) (file_ids : List Int) (threshold : ℚ) :
    List (Int × List SimEntry) :=
  file_ids.map (fun fid =>
    (fid, calculate_similarity files (searchResFor fid) fid threshold 10))

/-- `SimilarityService.get_all_similar_documents` (`services/similarity.py`):
the similarity matrix over every file with `has_embeddings == True`. -/
def get_all_similar_documents (files : List FileRec)
    (searchResFor : Int → List (Int × ℚ)) (threshold : ℚ) :
    List (Int × List SimEntry) :=
  calculate_similarity_matrix files searchResFor
    ((files.filter (fun f => f.has_embeddings)).map (fun f => f.id)) threshold

/-- The `GET /api/similarity/matrix` handler `get_similarity_matrix`
(`routers/similarity.py`): it accepts a `limit` query parameter but calls
`get_all_similar_documents(threshold)` with it unused. -/
def get_similarity_matrix (files : List FileRec)
    (searchResFor : Int → List (Int × ℚ)) (threshold : ℚ) (limit : Nat) :
    List (Int × List SimEntry) :=
  get_all_similar_documents files searchResFor threshold

/-- The returned list is truncated to `limit` entries (`[:limit]`). -/
theorem calculate_similarity_length_le (files : List FileRec)
    (searchRes : List (Int × ℚ)) (file_id : Int) (threshold : ℚ) (limit : Nat) :
    (calculate_similarity files searchRes file_id threshold limit).length ≤ limit := by
  unfold calculate_similarity
  cases findFile files file_id with
  | none => simp
  | some file =>
    cases hb : file.has_embeddings with
    | false => simp [hb]
    | true =>
      cases hv : file.embedding with
      | none => simp [hb, hv]
      | some v =>
        simp only [hb, hv, Bool.not_true, Bool.false_eq_true, if_false]
        exact List.length_take_le _ _

/-- C5: every entry returned by `calculate_similarity` has
`similarity_score = 1 / (1 + distance)` at least `threshold` and a file id
different from the queried one; the list is sorted by descending score and
has at most `limit` entries. -/
theorem calculate_similarity_spec (files : List FileRec)
    (searchRes : List (Int × ℚ)) (file_id : Int) (threshold : ℚ) (limit : Nat) :
    (∀ e ∈ calculate_similarity files searchRes file_id threshold limit,
        threshold ≤ e.similarity_score ∧
        e.similarity_score = 1 / (1 + e.distance) ∧
        e.file_id ≠ file_id) ∧
    List.Sorted simDesc (calculate_similarity files searchRes file_id threshold limit) ∧
    (calculate_similarity files searchRes file_id threshold limit).length ≤ limit := by
  refine ⟨?_, ?_, calculate_similarity_length_le files searchRes file_id threshold limit⟩
  · intro e he
    unfold calculate_similarity at he
    cases hf : findFile files file_id with
    | none => rw [hf] at he; simp at he
    | some file =>
      rw [hf] at he
      cases hb : file.has_embeddings with
      | false => simp [hb] at he
      | true =>
        cases hv : file.embedding with
        | none => simp [hb, hv] at he
        | some v =>
          simp only [hb, hv, Bool.not_true, Bool.false_eq_true, if_false] at he
          have he1 : e ∈ List.insertionSort simDesc
              (searchRes.filterMap (fun p =>
                if p.1 == -1 || p.1 == file_id then none
                else
                  if threshold ≤ 1 / (1 + p.2) then
                    (findFile files p.1).map (fun sf =>
                      { file_id := sf.id, file_name := sf.name,
                        similarity_score := 1 / (1 + p.2), distance := p.2 })
                  else none)) := List.mem_of_mem_take he
          have he2 := (List.perm_insertionSort simDesc _).mem_iff.mp he1
          obtain ⟨p, hp, hpe⟩ := List.mem_filterMap.mp he2
          by_cases h1 : (p.1 == -1 || p.1 == file_id) = true
          · rw [if_pos h1] at hpe; exact absurd hpe (by simp)
          · rw [if_neg h1] at hpe
            by_cases h2 : threshold ≤ 1 / (1 + p.2)
            · rw [if_pos h2] at hpe
              obtain ⟨sf, hsf, rfl⟩ := Option.map_eq_some'.mp hpe
              have hsf' : List.find? (fun f => f.id == p.1) files = some sf := hsf
              have hid := List.find?_some hsf'
              have hid' : sf.id = p.1 := by simpa using hid
              have hne : p.1 ≠ file_id := by
                intro hcontra
                exact h1 (by simp [hcontra])
              exact ⟨h2, rfl, by simpa [hid'] using hne⟩
            · rw [if_neg h2] at hpe; exact absurd hpe (by simp)
  · unfold calculate_similarity
    cases findFile files file_id with
    | none => simp
    | some file =>
      cases hb : file.has_embeddings with
      | false => simp [hb, List.Sorted]
      | true =>
        cases hv : file.embedding with
        | none => simp [hb, hv, List.Sorted]
        | some v =>
          simp only [hb, hv, Bool.not_true, Bool.false_eq_true, if_false]
          exact List.Pairwise.sublist (List.take_sublist _ _)
            (List.sorted_insertionSort simDesc _)

/-- Witness for C5 at a concrete five-document index. -/
theorem calculate_similarity_spec_witness :
    (∀ e ∈ calculate_similarity
        [⟨1, "a", true, some [0]⟩, ⟨2, "b", true, some [1]⟩,
         ⟨3, "c", true, some [2]⟩, ⟨4, "d", true, some [3]⟩,
         ⟨5, "e", true, some [4]⟩]
        [(1, 0), (2, 1), (3, 4), (4, 9)] 1 0 3,
        (0 : ℚ) ≤ e.similarity_score ∧
        e.similarity_score = 1 / (1 + e.distance) ∧
        e.file_id ≠ 1) ∧
    List.Sorted simDesc (calculate_similarity
        [⟨1, "a", true, some [0]⟩, ⟨2, "b", true, some [1]⟩,
         ⟨3, "c", true, some [2]⟩, ⟨4, "d", true, some [3]⟩,
         ⟨5, "e", true, some [4]⟩]
        [(1, 0), (2, 1), (3, 4), (4, 9)] 1 0 3) ∧
    (calculate_similarity
        [⟨1, "a", true, some [0]⟩, ⟨2, "b", true, some [1]⟩,
         ⟨3, "c", true, some [2]⟩, ⟨4, "d", true, some [3]⟩,
         ⟨5, "e", true, some [4]⟩]
        [(1, 0), (2, 1), (3, 4), (4, 9)] 1 0 3).length ≤ 3 :=
  calculate_similarity_spec _ _ _ _ _

/-- C9: when the queried file row is missing, or has `has_embeddings` unset,
or `get_embedding()` returns `None`, `calculate_similarity` returns the
empty list (no exception). -/
theorem calculate_similarity_no_embedding (files : List FileRec)
    (searchRes : List (Int × ℚ)) (file_id : Int) (threshold : ℚ) (limit : Nat)
    (h : findFile files file_id = none ∨
         ∃ f, findFile files file_id = some f ∧
           (f.has_embeddings = false ∨ f.embedding = none)) :
    calculate_similarity files searchRes file_id threshold limit = [] := by
  unfold calculate_similarity
  rcases h with h | ⟨f, hf, hcase⟩
  · rw [h]
  · rw [hf]
    rcases hcase with h1 | h1
    · simp [h1]
    · cases hb : f.has_embeddings <;> simp [h1, hb]

/-- Witness for C9: an empty database and a database whose only file has no
embedding. -/
theorem calculate_similarity_no_embedding_witness :
    calculate_similarity [] [(2, 1)] 1 (1/2) 10 = [] ∧
    calculate_similarity [⟨1, "a", false, none⟩] [(2, 1)] 1 (1/2) 10 = [] :=
  ⟨calculate_similarity_no_embedding [] [(2, 1)] 1 (1/2) 10 (Or.inl rfl),
   calculate_similarity_no_embedding [⟨1, "a", false, none⟩] [(2, 1)] 1 (1/2) 10
     (Or.inr ⟨⟨1, "a", false, none⟩, rfl, Or.inl rfl⟩)⟩

/-- C10: every per-file list in `calculate_similarity_matrix` has at most 10
entries (the callee's default limit), and the `/matrix` route's `limit`
query parameter has no effect on the response. -/
theorem calculate_similarity_matrix_limit (files : List FileRec)
    (searchResFor : Int → List (Int × ℚ)) (file_ids : List Int) (threshold : ℚ)
    (limit1 limit2 : Nat) :
    ((calculate_similarity_matrix files searchResFor file_ids threshold).all
        (fun p => decide (p.2.length ≤ 10))) = true ∧
    get_similarity_matrix files searchResFor threshold limit1 =
      get_similarity_matrix files searchResFor threshold limit2 := by
  constructor
  · rw [List.all_eq_true]
    intro p hp
    obtain ⟨fid, _, rfl⟩ := List.mem_map.mp hp
    simpa using calculate_similarity_length_le files (searchResFor fid) fid threshold 10
  · rfl

/-- Counterexample to C1: storing an embedding twice for the same `file_id`
leaves one database row but two index entries — the stale vector `[0]` is
still in the index, so indexed vectors and Embedding rows are not in
one-to-one correspondence after the second store. -/
theorem store_embedding_stale_counterexample :
    (storeAll ⟨[], []⟩ [(1, [0]), (1, [1])]).rows = [⟨1, [1]⟩] ∧
    (storeAll ⟨[], []⟩ [(1, [0]), (1, [1])]).index = [[0], [1]] ∧
    ¬ (storeAll ⟨[], []⟩ [(1, [0]), (1, [1])]).index.length =
        (storeAll ⟨[], []⟩ [(1, [0]), (1, [1])]).rows.length := by
  refine ⟨rfl, rfl, by decide⟩

/-- `storeAll` invariant for runs whose stores all hit fresh file ids. -/
theorem storeAll_fresh_invariant (ops : List (Int × List ℚ)) :
    ∀ s : EmbeddingsState,
      s.index = s.rows.map EmbeddingRow.embedding →
      (∀ p ∈ ops, ∀ r ∈ s.rows, r.file_id ≠ p.1) →
      ops.Pairwise (fun a b => a.1 ≠ b.1) →
      (storeAll s ops).index = (storeAll s ops).rows.map EmbeddingRow.embedding ∧
      (storeAll s ops).rows.map EmbeddingRow.file_id =
        s.rows.map EmbeddingRow.file_id ++ ops.map Prod.fst := by
  induction ops with
  | nil => intro s hinv _ _; exact ⟨hinv, by simp [storeAll]⟩
  | cons p rest ih =>
    intro s hinv hdisj hpw
    have hfresh : s.rows.any (fun r => r.file_id == p.1) = false := by
      rw [List.any_eq_false]
      intro r hr
      simpa using hdisj p (List.mem_cons_self _ _) r hr
    have hstep : store_embedding s p.1 p.2 =
        ⟨s.rows ++ [⟨p.1, p.2⟩], s.index ++ [p.2]⟩ := by
      unfold store_embedding upsertRow
      rw [hfresh]
      simp
    have hinv' : (store_embedding s p.1 p.2).index =
        (store_embedding s p.1 p.2).rows.map EmbeddingRow.embedding := by
      rw [hstep]; simp [hinv]
    have hdisj' : ∀ q ∈ rest, ∀ r ∈ (store_embedding s p.1 p.2).rows,
        r.file_id ≠ q.1 := by
      intro q hq r hr
      rw [hstep] at hr
      rcases List.mem_append.mp hr with hr | hr
      · exact hdisj q (List.mem_cons_of_mem _ hq) r hr
      · have : r = ⟨p.1, p.2⟩ := by simpa using hr
        subst this
        exact (List.pairwise_cons.mp hpw).1 q hq
    obtain ⟨h1, h2⟩ := ih (store_embedding s p.1 p.2) hinv' hdisj'
      (List.pairwise_cons.mp hpw).2
    refine ⟨by simpa [storeAll] using h1, ?_⟩
    have : storeAll s (p :: rest) = storeAll (store_embedding s p.1 p.2) rest := rfl
    rw [this, h2, hstep]
    simp

/-- C1 as amended: `store_embedding` never removes a stale index entry — it
always appends the new vector at the end of the index — so the
index/Embedding-table one-to-one correspondence holds after a run of stores
exactly when no `file_id` is stored twice; under pairwise-distinct ids the
index equals, position by position, the vectors of the rows. -/
theorem store_embedding_append_spec (ops : List (Int × List ℚ))
    (hpw : ops.Pairwise (fun a b => a.1 ≠ b.1)) :
    (∀ (s : EmbeddingsState) (fid : Int) (emb : List ℚ),
        (store_embedding s fid emb).index = s.index ++ [emb]) ∧
    (storeAll ⟨[], []⟩ ops).index =
      (storeAll ⟨[], []⟩ ops).rows.map EmbeddingRow.embedding ∧
    (storeAll ⟨[], []⟩ ops).rows.map EmbeddingRow.file_id = ops.map Prod.fst := by
  obtain ⟨h1, h2⟩ := storeAll_fresh_invariant ops ⟨[], []⟩ (by simp)
    (by intro p _ r hr; simp at hr) hpw
  exact ⟨fun s fid emb => rfl, h1, by simpa using h2⟩

/-- Witness for the amended C1 at a two-document run. -/
theorem store_embedding_append_spec_witness :
    (∀ (s : EmbeddingsState) (fid : Int) (emb : List ℚ),
        (store_embedding s fid emb).index = s.index ++ [emb]) ∧
    (storeAll ⟨[], []⟩ [(1, [0]), (2, [1])]).index =
      (storeAll ⟨[], []⟩ [(1, [0]), (2, [1])]).rows.map EmbeddingRow.embedding ∧
    (storeAll ⟨[], []⟩ [(1, [0]), (2, [1])]).rows.map EmbeddingRow.file_id =
      [(1, [(0 : ℚ)]), (2, [1])].map Prod.fst :=
  store_embedding_append_spec [(1, [0]), (2, [1])] (by decide)

/-- Counterexample to C3: the status update at the top of `extract_content`
succeeds from a non-`pending` state — applied to a `completed` task row it
returns a `processing` row instead of failing and leaving the row
unchanged, and a second racing transition on an already-`processing` row
succeeds as well. -/
theorem markProcessingStep_counterexample :
    markProcessingStep ⟨"completed", 0, 3, none, none, some 5⟩ 7 =
      ⟨"processing", 0, 3, none, some 7, some 5⟩ ∧
    markProcessingStep ⟨"completed", 0, 3, none, none, some 5⟩ 7 ≠
      ⟨"completed", 0, 3, none, none, some 5⟩ ∧
    (markProcessingStep (markProcessingStep ⟨"pending", 0, 3, none, none, none⟩ 1) 2).status
      = "processing" := by
  refine ⟨rfl, by decide, rfl⟩

/-- C3 as amended: `extract_content` sets the task row to `status =
"processing"` and records `started_at` unconditionally, from any prior
state; no `InvalidTransition` error exists and every racing attempt
succeeds, while the remaining fields are untouched. -/
theorem markProcessingStep_unconditional (t : TaskRow) (now : ℚ) :
    (markProcessingStep t now).status = "processing" ∧
    (markProcessingStep t now).started_at = some now ∧
    (markProcessingStep t now).retry_count = t.retry_count ∧
    (markProcessingStep t now).max_retries = t.max_retries ∧
    (markProcessingStep t now).error_message = t.error_message ∧
    (markProcessingStep t now).completed_at = t.completed_at :=
  ⟨rfl, rfl, rfl, rfl, rfl, rfl⟩


/-- Attempt-loop invariant: started strictly below the retry budget and
given enough queued outcomes, the loop ends in a terminal row, the retry
count stays within `max_retries` along the whole committed trace, and
exactly one committed snapshot is terminal. -/
theorem runJob_invariant :
    ∀ (os : List (ℚ × Option String)) (t : TaskRow),
      t.retry_count < t.max_retries →
      t.max_retries ≤ os.length + t.retry_count →
      (runJob t os).retry_count ≤ t.max_retries ∧
      isTerminal (runJob t os) = true ∧
      (runJobTrace t os).countP isTerminal = 1 ∧
      ∀ r ∈ runJobTrace t os, r.retry_count ≤ t.max_retries := by
  intro os
  induction os with
  | nil => intro t hlt hle; simp at hle; omega
  | cons o os ih =>
    intro t hlt hle
    obtain ⟨now, outc⟩ := o
    match outc with
    | none =>
      have hjob : runJob t ((now, none) :: os) =
          ⟨"completed", t.retry_count, t.max_retries, t.error_message,
            some now, some now⟩ := by
        simp [runJob, attemptStep, markProcessingStep]
      have htrace : runJobTrace t ((now, none) :: os) =
          [⟨"processing", t.retry_count, t.max_retries, t.error_message,
             some now, t.completed_at⟩,
           ⟨"completed", t.retry_count, t.max_retries, t.error_message,
             some now, some now⟩] := by
        simp [runJobTrace, attemptStep, markProcessingStep]
      rw [hjob, htrace]
      refine ⟨le_of_lt hlt, by simp [isTerminal], ?_, ?_⟩
      · simp [List.countP_cons, List.countP_nil, isTerminal]
      · intro r hr
        simp only [List.mem_cons, List.not_mem_nil, or_false] at hr
        rcases hr with hr | hr
        · rw [hr]; exact le_of_lt hlt
        · rw [hr]; exact le_of_lt hlt
    | some err =>
      by_cases hretry : t.retry_count + 1 < t.max_retries
      · have hjob : runJob t ((now, some err) :: os) =
            runJob ⟨"failed", t.retry_count + 1, t.max_retries, some err,
              some now, t.completed_at⟩ os := by
          simp [runJob, attemptStep, markProcessingStep, hretry]
        have htrace : runJobTrace t ((now, some err) :: os) =
            ⟨"processing", t.retry_count, t.max_retries, t.error_message,
              some now, t.completed_at⟩ ::
            ⟨"failed", t.retry_count + 1, t.max_retries, some err,
              some now, t.completed_at⟩ ::
            runJobTrace ⟨"failed", t.retry_count + 1, t.max_retries, some err,
              some now, t.completed_at⟩ os := by
          simp [runJobTrace, attemptStep, markProcessingStep, hretry]
        obtain ⟨ih1, ih2, ih3, ih4⟩ := ih
          ⟨"failed", t.retry_count + 1, t.max_retries, some err,
            some now, t.completed_at⟩
          (by simpa using hretry) (by simp at hle ⊢; omega)
        rw [hjob, htrace]
        refine ⟨ih1, ih2, ?_, ?_⟩
        · rw [List.countP_cons, List.countP_cons]
          have h1 : isTerminal ⟨"processing", t.retry_count, t.max_retries,
              t.error_message, some now, t.completed_at⟩ = false := by
            simp [isTerminal]
          have h2 : isTerminal ⟨"failed", t.retry_count + 1, t.max_retries,
              some err, some now, t.completed_at⟩ = false := by
            simp [isTerminal]; omega
          rw [h1, h2, ih3]
          simp
        · intro r hr
          simp only [List.mem_cons] at hr
          rcases hr with hr | hr | hr
          · rw [hr]; exact le_of_lt hlt
          · rw [hr]; simp; omega
          · exact ih4 r hr
      · have hjob : runJob t ((now, some err) :: os) =
            ⟨"failed", t.retry_count + 1, t.max_retries, some err,
              some now, t.completed_at⟩ := by
          simp [runJob, attemptStep, markProcessingStep, hretry]
        have htrace : runJobTrace t ((now, some err) :: os) =
            [⟨"processing", t.retry_count, t.max_retries, t.error_message,
               some now, t.completed_at⟩,
             ⟨"failed", t.retry_count + 1, t.max_retries, some err,
               some now, t.completed_at⟩] := by
          simp [runJobTrace, attemptStep, markProcessingStep, hretry]
        rw [hjob, htrace]
        refine ⟨by simp; omega, by simp [isTerminal]; omega, ?_, ?_⟩
        · rw [List.countP_cons, List.countP_cons, List.countP_nil]
          have h1 : isTerminal ⟨"processing", t.retry_count, t.max_retries,
              t.error_message, some now, t.completed_at⟩ = false := by
            simp [isTerminal]
          have h2 : isTerminal ⟨"failed", t.retry_count + 1, t.max_retries,
              some err, some now, t.completed_at⟩ = true := by
            simp [isTerminal]; omega
          rw [h1, h2]
          simp
        · intro r hr
          simp only [List.mem_cons, List.not_mem_nil, or_false] at hr
          rcases hr with hr | hr
          · rw [hr]; exact le_of_lt hlt
          · rw [hr]; simp; omega

/-- C6: a job started at `retry_count = 0` with a positive retry budget and
enough delivered attempts ends in a terminal row, its committed
`retry_count` never exceeds `max_retries` anywhere along the trace, and
exactly one committed snapshot is terminal (`"completed"`, or `"failed"`
with the budget exhausted) — never both, never more than once. -/
theorem extraction_job_spec (t0 : TaskRow) (os : List (ℚ × Option String))
    (hrc : t0.retry_count = 0) (hmax : 1 ≤ t0.max_retries)
    (hos : t0.max_retries ≤ os.length) :
    (runJob t0 os).retry_count ≤ t0.max_retries ∧
    isTerminal (runJob t0 os) = true ∧
    (runJobTrace t0 os).countP isTerminal = 1 ∧
    ∀ r ∈ runJobTrace t0 os, r.retry_count ≤ t0.max_retries :=
  runJob_invariant os t0 (by omega) (by omega)

/-- Witness for C6: Scenario A — `max_retries = 3` and an always-failing
extractor. -/
theorem extraction_job_spec_witness :
    (runJob ⟨"pending", 0, 3, none, none, none⟩
        [(0, some "timeout"), (1, some "timeout"), (2, some "timeout")]).retry_count ≤ 3 ∧
    isTerminal (runJob ⟨"pending", 0, 3, none, none, none⟩
        [(0, some "timeout"), (1, some "timeout"), (2, some "timeout")]) = true ∧
    (runJobTrace ⟨"pending", 0, 3, none, none, none⟩
        [(0, some "timeout"), (1, some "timeout"), (2, some "timeout")]).countP
        isTerminal = 1 ∧
    ∀ r ∈ runJobTrace ⟨"pending", 0, 3, none, none, none⟩
        [(0, some "timeout"), (1, some "timeout"), (2, some "timeout")],
      r.retry_count ≤ 3 :=
  extraction_job_spec ⟨"pending", 0, 3, none, none, none⟩
    [(0, some "timeout"), (1, some "timeout"), (2, some "timeout")]
    rfl (by decide) (by decide)

/-- Counterexample to C8: an `extracted_content` row with
`extraction_status = "completed"` but empty text is skipped by
`index_content` — running the indexer twice leaves zero `search_index`
rows, not exactly one. -/
theorem index_content_empty_content_counterexample :
    (index_content ⟨[⟨1, some "", "completed", none⟩], []⟩ 1 0).2 = "skipped" ∧
    searchRowsFor
      (index_content (index_content ⟨[⟨1, some "", "completed", none⟩], []⟩ 1 0).1
        1 1).1 1 = [] ∧
    ¬ (searchRowsFor
        (index_content (index_content ⟨[⟨1, some "", "completed", none⟩], []⟩ 1 0).1
          1 1).1 1).length = 1 := by
  refine ⟨rfl, rfl, by decide⟩

/-- A `find?` hit together with at most one `filter` match pins the filtered
list down to that single hit. -/
theorem filter_eq_singleton_of_find? {α : Type} (p : α → Bool) (l : List α) (r : α)
    (hfind : l.find? p = some r) (hlen : (l.filter p).length ≤ 1) :
    l.filter p = [r] := by
  induction l with
  | nil => simp at hfind
  | cons a l ih =>
    by_cases hpa : p a = true
    · rw [List.find?_cons_of_pos _ hpa] at hfind
      injection hfind with h
      subst h
      rw [List.filter_cons_of_pos hpa] at hlen ⊢
      have h0 : l.filter p = [] := by
        have hz : (l.filter p).length = 0 := by
          simp only [List.length_cons] at hlen; omega
        exact List.length_eq_zero.mp hz
      rw [h0]
    · rw [List.find?_cons_of_neg _ hpa] at hfind
      rw [List.filter_cons_of_neg hpa] at hlen ⊢
      exact ih hfind hlen

/-- One run of `index_content` on a completed row with truthy content and at
most one pre-existing `search_index` row: it reports `"completed"`, leaves
the `extracted_content` table alone, and leaves exactly the row
`⟨fid, ec.content, now⟩` for that file. -/
theorem index_content_run (db : SearchDB) (fid : Int) (now : ℚ)
    (ec : ExtractedContentRow)
    (hfind : findExtractedCompleted db fid = some ec)
    (htr : contentTruthy ec.content = true)
    (huniq : (searchRowsFor db fid).length ≤ 1) :
    (index_content db fid now).2 = "completed" ∧
    (index_content db fid now).1.extracted = db.extracted ∧
    searchRowsFor (index_content db fid now).1 fid = [⟨fid, ec.content, now⟩] := by
  unfold index_content
  simp only [hfind, htr, Bool.not_true, Bool.false_eq_true, if_false]
  cases hf : db.search.find? (fun r => r.file_id == fid) with
  | none =>
    refine ⟨rfl, rfl, ?_⟩
    unfold searchRowsFor
    have h0 : db.search.filter (fun r => r.file_id == fid) = [] := by
      rw [List.filter_eq_nil]
      intro a ha
      simpa using List.find?_eq_none.mp hf a ha
    simp [List.filter_append, h0]
  | some r0 =>
    refine ⟨rfl, rfl, ?_⟩
    unfold searchRowsFor
    rw [List.filter_map]
    have hcomp : ∀ r ∈ db.search,
        ((fun r : SearchIndexRow => r.file_id == fid) ∘
          (fun r : SearchIndexRow =>
            if r.file_id == fid then
              { file_id := r.file_id, content := ec.content, indexed_at := now }
            else r)) r
          = (fun r : SearchIndexRow => r.file_id == fid) r := by
      intro r _
      by_cases h : r.file_id = fid
      · simp [h]
      · simp [h]
    rw [List.filter_congr hcomp]
    have hfsingle : db.search.filter (fun r => r.file_id == fid) = [r0] :=
      filter_eq_singleton_of_find? _ _ _ hf (by
        unfold searchRowsFor at huniq; exact huniq)
    rw [hfsingle]
    have hr0 : (r0.file_id == fid) = true := by
      have := List.find?_some hf
      simpa using this
    have hr0' : r0.file_id = fid := by simpa using hr0
    simp [hr0, hr0']

/-- C8 as amended: for a `file_id` whose `extracted_content` row is
`completed` *with non-empty content*, running `index_content` twice leaves
exactly one `search_index` row, identical across the two runs except for
`indexed_at`; when the completed row is missing (or not completed) the task
returns `"skipped"` and changes nothing — and, per the counterexample, the
empty-content completed row is also skipped. -/
theorem index_content_idempotent (db : SearchDB) (fid : Int) (t1 t2 : ℚ)
    (ec : ExtractedContentRow)
    (hfind : findExtractedCompleted db fid = some ec)
    (htr : contentTruthy ec.content = true)
    (huniq : (searchRowsFor db fid).length ≤ 1) :
    (index_content db fid t1).2 = "completed" ∧
    searchRowsFor (index_content db fid t1).1 fid = [⟨fid, ec.content, t1⟩] ∧
    searchRowsFor (index_content (index_content db fid t1).1 fid t2).1 fid =
      [⟨fid, ec.content, t2⟩] ∧
    (∀ (db2 : SearchDB) (fid2 : Int) (now : ℚ),
        findExtractedCompleted db2 fid2 = none →
        index_content db2 fid2 now = (db2, "skipped")) := by
  obtain ⟨hs1, he1, hr1⟩ := index_content_run db fid t1 ec hfind htr huniq
  have hfind2 : findExtractedCompleted (index_content db fid t1).1 fid = some ec := by
    unfold findExtractedCompleted
    rw [he1]
    exact hfind
  have huniq2 : (searchRowsFor (index_content db fid t1).1 fid).length ≤ 1 := by
    rw [hr1]; simp
  obtain ⟨hs2, he2, hr2⟩ :=
    index_content_run (index_content db fid t1).1 fid t2 ec hfind2 htr huniq2
  refine ⟨hs1, hr1, hr2, ?_⟩
  intro db2 fid2 now h
  unfold index_content
  rw [h]

/-- Witness for the amended C8: one completed document indexed twice. -/
theorem index_content_idempotent_witness :
    (index_content ⟨[⟨1, some "hello", "completed", none⟩], []⟩ 1 0).2 = "completed" ∧
    searchRowsFor (index_content ⟨[⟨1, some "hello", "completed", none⟩], []⟩ 1 0).1 1 =
      [⟨1, some "hello", 0⟩] ∧
    searchRowsFor
      (index_content (index_content ⟨[⟨1, some "hello", "completed", none⟩], []⟩ 1 0).1
        1 1).1 1 = [⟨1, some "hello", 1⟩] ∧
    (∀ (db2 : SearchDB) (fid2 : Int) (now : ℚ),
        findExtractedCompleted db2 fid2 = none →
        index_content db2 fid2 now = (db2, "skipped")) :=
  index_content_idempotent ⟨[⟨1, some "hello", "completed", none⟩], []⟩ 1 0 1
    ⟨1, some "hello", "completed", none⟩ rfl rfl (by decide)

/-- A closed breaker fed exactly enough consecutive failing calls to reach
its threshold ends in state `"open"`. -/
theorem callFold_closed_failures :
    ∀ (events : List (ℚ × Except PyError Unit)) (cb : CircuitBreaker),
      cb.state = "closed" →
      (∀ e ∈ events, ∃ err, e.2 = Except.error err) →
      cb.failure_count + events.length = cb.failure_threshold →
      1 ≤ events.length →
      (callFold cb events).state = "open" := by
  intro events
  induction events with
  | nil => intro cb _ _ _ hlen; simp at hlen
  | cons e rest ih =>
    intro cb hstate herr hcount hlen
    obtain ⟨err, herr0⟩ := herr e (List.mem_cons_self _ _)
    have hco : (cb.state == "open") = false := by rw [hstate]; rfl
    have hfold : callFold cb (e :: rest) = callFold ((cb.call e.1 e.2).breaker) rest := rfl
    have hstep : (cb.call e.1 e.2).breaker = cb.onFailure e.1 := by
      simp [CircuitBreaker.call, herr0, hco]
    rw [hfold, hstep]
    by_cases hth : cb.failure_threshold ≤ cb.failure_count + 1
    · have hrest : rest = [] := by
        have hr0 : rest.length = 0 := by
          simp only [List.length_cons] at hcount; omega
        exact List.length_eq_zero.mp hr0
      subst hrest
      show (cb.onFailure e.1).state = "open"
      simp [CircuitBreaker.onFailure, hth]
    · have hlen' : 1 ≤ rest.length := by
        rcases rest with _ | ⟨r, rs⟩
        · exfalso; simp only [List.length_cons, List.length_nil] at hcount; omega
        · simp
      apply ih
      · simp [CircuitBreaker.onFailure, hth, hstate]
      · intro x hx; exact herr x (List.mem_cons_of_mem _ hx)
      · simp only [CircuitBreaker.onFailure, hth, if_false]
        simp only [List.length_cons] at hcount
        omega
      · exact hlen'

/-- C2: a fresh breaker reaches `"open"` after `failure_threshold`
consecutive failed calls; while `"open"`, a call before `recovery_timeout`
has elapsed since the last failure raises the circuit-open error
(`TikaConnectionError("Circuit breaker is open")`, the code's realization
of `CircuitOpenError`) without invoking the wrapped function and without
changing the breaker; once `recovery_timeout` has elapsed, the next call
does invoke the wrapped function (the half-open trial). -/
theorem circuit_breaker_spec (ft : Nat) (rt : ℚ)
    (events : List (ℚ × Except PyError Unit))
    (cb : CircuitBreaker) (t now : ℚ) (outcome : Except PyError Unit)
    (hft : 1 ≤ ft) (hlen : events.length = ft)
    (herr : ∀ e ∈ events, ∃ err, e.2 = Except.error err)
    (hstate : cb.state = "open") (hlast : cb.last_failure_time = some t) :
    (callFold (CircuitBreaker.fresh ft rt) events).state = "open" ∧
    (now - t < cb.recovery_timeout →
      cb.call now outcome =
        ⟨cb, Except.error (PyError.tikaConnectionError "Circuit breaker is open"),
          false⟩) ∧
    (cb.recovery_timeout ≤ now - t → (cb.call now outcome).invoked = true) := by
  refine ⟨?_, ?_, ?_⟩
  · exact callFold_closed_failures events (CircuitBreaker.fresh ft rt) rfl herr
      (by simp [CircuitBreaker.fresh, hlen]) (by omega)
  · intro hb
    have hreset : cb.shouldAttemptReset now = false := by
      simp [CircuitBreaker.shouldAttemptReset, hlast]
      exact hb
    have hco : (cb.state == "open") = true := by rw [hstate]; rfl
    simp [CircuitBreaker.call, hco, hreset]
  · intro hb
    have hreset : cb.shouldAttemptReset now = true := by
      simp [CircuitBreaker.shouldAttemptReset, hlast]
      exact hb
    have hco : (cb.state == "open") = true := by rw [hstate]; rfl
    cases outcome with
    | ok a => simp [CircuitBreaker.call, hco, hreset]
    | error e => simp [CircuitBreaker.call, hco, hreset]

/-- Witness for C2: threshold 2 reached by two failing calls; an open
breaker probed inside and after its 30-second window. -/
theorem circuit_breaker_spec_witness :
    (callFold (CircuitBreaker.fresh 2 30)
        [(0, Except.error (PyError.timeout "a")),
         (1, Except.error (PyError.timeout "b"))]).state = "open" ∧
    ((110 : ℚ) - 100 < (30 : ℚ) →
      CircuitBreaker.call ⟨2, 30, 2, some 100, "open"⟩ 110 (Except.ok ()) =
        ⟨⟨2, 30, 2, some 100, "open"⟩,
          Except.error (PyError.tikaConnectionError "Circuit breaker is open"),
          false⟩) ∧
    ((30 : ℚ) ≤ (110 : ℚ) - 100 →
      (CircuitBreaker.call ⟨2, 30, 2, some 100, "open"⟩ 110
        (Except.ok ())).invoked = true) :=
  circuit_breaker_spec 2 30
    [(0, Except.error (PyError.timeout "a")), (1, Except.error (PyError.timeout "b"))]
    ⟨2, 30, 2, some 100, "open"⟩ 100 110 (Except.ok ()) (by decide) rfl
    (by
      rintro e he
      simp only [List.mem_cons, List.not_mem_nil, or_false] at he
      rcases he with rfl | rfl
      · exact ⟨_, rfl⟩
      · exact ⟨_, rfl⟩)
    rfl rfl

/-- Counterexample to C4: `retry_with_backoff` applied directly to a call
that keeps raising the breaker's open error
(`TikaConnectionError("Circuit breaker is open")`) catches it in its
*retryable* clause: with `max_retries = 2` it sleeps twice (1s then 2s),
invokes the wrapped function three times, and finally raises the
`RetryableError` exhaustion wrapper — it does not propagate the error
immediately. -/
theorem retry_circuit_open_retried :
    (retry_with_backoff ⟨2, 1, 60, 2, false⟩
      (fun _ => Except.error (PyError.tikaConnectionError "Circuit breaker is open"))
      (fun _ => 0) : RetryTrace Unit).sleeps = [1, 2] ∧
    (retry_with_backoff ⟨2, 1, 60, 2, false⟩
      (fun _ => Except.error (PyError.tikaConnectionError "Circuit breaker is open"))
      (fun _ => 0) : RetryTrace Unit).calls = 3 ∧
    (retry_with_backoff ⟨2, 1, 60, 2, false⟩
      (fun _ => Except.error (PyError.tikaConnectionError "Circuit breaker is open"))
      (fun _ => 0) : RetryTrace Unit).result =
      Except.error (PyError.retryableError
        "Failed after 2 attempts: Circuit breaker is open") := by
  refine ⟨?_, rfl, rfl⟩
  simp [retry_with_backoff, retryGo, backoffDelay, retryableCatch]
  norm_num

/-- C4 as amended: `retry_with_backoff` classifies the breaker's
`TikaConnectionError` as retryable (see the counterexample); the immediate
propagation the spec describes holds only for the composed decorator chain
of `TikaService.extract_text`, where `handle_file_errors` and
`handle_tika_errors` rewrap the open-breaker error into `ExtractionError`
before it reaches the retry loop — that rewrapped error is propagated on
the first attempt, with no sleep and no further invocation. -/
theorem retry_circuit_open_composed (cb : CircuitBreaker) (t now : ℚ)
    (o : Except PyError Unit) (cfg : RetryConfig) (rand : Nat → ℚ)
    (fn : Nat → Except PyError Unit)
    (hstate : cb.state = "open") (hlast : cb.last_failure_time = some t)
    (hbefore : now - t < cb.recovery_timeout)
    (hfn : ∀ n, fn n = handle_tika_errors (handle_file_errors (cb.call now o).result)) :
    (cb.call now o).invoked = false ∧
    fn 0 = Except.error (PyError.extractionError "Circuit breaker is open") ∧
    (retry_with_backoff cfg fn rand).result =
      Except.error (PyError.extractionError "Circuit breaker is open") ∧
    (retry_with_backoff cfg fn rand).sleeps = [] ∧
    (retry_with_backoff cfg fn rand).calls = 1 := by
  have hreset : cb.shouldAttemptReset now = false := by
    simp [CircuitBreaker.shouldAttemptReset, hlast]
    exact hbefore
  have hco : (cb.state == "open") = true := by rw [hstate]; rfl
  have hcall : cb.call now o =
      ⟨cb, Except.error (PyError.tikaConnectionError "Circuit breaker is open"),
        false⟩ := by
    simp [CircuitBreaker.call, hco, hreset]
  have h0 : ∀ n, fn n =
      Except.error (PyError.extractionError "Circuit breaker is open") := by
    intro n; rw [hfn n, hcall]; rfl
  refine ⟨by rw [hcall], h0 0, ?_, ?_, ?_⟩ <;>
    simp [retry_with_backoff, retryGo, h0, retryableCatch, nonRetryableCatch,
      PyError.msg]

/-- Witness for the amended C4: a concrete open breaker probed 10s into its
30s window, through the full decorator chain. -/
theorem retry_circuit_open_composed_witness :
    (CircuitBreaker.call (⟨3, 30, 3, some 100, "open"⟩ : CircuitBreaker) 110
      (Except.ok ())).invoked = false ∧
    (fun _ : Nat => handle_tika_errors (handle_file_errors
        (CircuitBreaker.call (⟨3, 30, 3, some 100, "open"⟩ : CircuitBreaker) 110
          (Except.ok ())).result)) 0 =
      Except.error (PyError.extractionError "Circuit breaker is open") ∧
    (retry_with_backoff ⟨3, 1, 60, 2, true⟩
      (fun _ : Nat => handle_tika_errors (handle_file_errors
        (CircuitBreaker.call (⟨3, 30, 3, some 100, "open"⟩ : CircuitBreaker) 110
          (Except.ok ())).result))
      (fun _ => 0)).result =
      Except.error (PyError.extractionError "Circuit breaker is open") ∧
    (retry_with_backoff ⟨3, 1, 60, 2, true⟩
      (fun _ : Nat => handle_tika_errors (handle_file_errors
        (CircuitBreaker.call (⟨3, 30, 3, some 100, "open"⟩ : CircuitBreaker) 110
          (Except.ok ())).result))
      (fun _ => 0)).sleeps = [] ∧
    (retry_with_backoff ⟨3, 1, 60, 2, true⟩
      (fun _ : Nat => handle_tika_errors (handle_file_errors
        (CircuitBreaker.call (⟨3, 30, 3, some 100, "open"⟩ : CircuitBreaker) 110
          (Except.ok ())).result))
      (fun _ => 0)).calls = 1 :=
  retry_circuit_open_composed ⟨3, 30, 3, some 100, "open"⟩ 100 110 (Except.ok ())
    ⟨3, 1, 60, 2, true⟩ (fun _ => 0) _ rfl rfl (by norm_num) (fun n => rfl)

/-- Exhaustion step of the retry loop: a retryable failure at
`attempt = max_retries` raises the `RetryableError` wrapper at once. -/
theorem retryGo_exhaust (cfg : RetryConfig) (fn : Nat → Except PyError α)
    (rand : Nat → ℚ) (fuel : Nat) (e : PyError)
    (hfa : fn cfg.max_retries = Except.error e) (hre : retryableCatch e = true) :
    retryGo cfg fn rand cfg.max_retries (fuel + 1) =
      ⟨Except.error (PyError.retryableError
          ("Failed after " ++ toString cfg.max_retries ++ " attempts: " ++ e.msg)),
        [], 1⟩ := by
  simp [retryGo, hfa, hre]

/-- Retry step of the loop: a retryable failure before the last attempt
sleeps the computed backoff delay and recurses at `attempt + 1`. -/
theorem retryGo_retry_step (cfg : RetryConfig) (fn : Nat → Except PyError α)
    (rand : Nat → ℚ) (attempt fuel : Nat) (e : PyError)
    (hfa : fn attempt = Except.error e) (hre : retryableCatch e = true)
    (hne : attempt ≠ cfg.max_retries) :
    retryGo cfg fn rand attempt (fuel + 1) =
      ⟨(retryGo cfg fn rand (attempt + 1) fuel).result,
        backoffDelay cfg rand attempt :: (retryGo cfg fn rand (attempt + 1) fuel).sleeps,
        (retryGo cfg fn rand (attempt + 1) fuel).calls + 1⟩ := by
  have hb : (attempt == cfg.max_retries) = false := by simp [hne]
  simp [retryGo, hfa, hre, hb]

/-- A run of the retry loop against an always-retryably-failing function:
it sleeps once per remaining retry, with the backoff delay of each attempt,
and ends in the exhaustion error wrapping the last failure. -/
theorem retryGo_allFail (cfg : RetryConfig) (fn : Nat → Except PyError α)
    (rand : Nat → ℚ) (errs : Nat → PyError)
    (hf : ∀ n, fn n = Except.error (errs n))
    (hr : ∀ n, retryableCatch (errs n) = true) :
    ∀ (k attempt : Nat), attempt + (k + 1) = cfg.max_retries + 1 →
      retryGo cfg fn rand attempt (k + 1) =
        ⟨Except.error (PyError.retryableError
            ("Failed after " ++ toString cfg.max_retries ++ " attempts: "
              ++ (errs cfg.max_retries).msg)),
          (List.range k).map (fun i => backoffDelay cfg rand (attempt + i)),
          k + 1⟩ := by
  intro k
  induction k with
  | zero =>
    intro attempt h
    have ha : attempt = cfg.max_retries := by omega
    subst ha
    rw [retryGo_exhaust cfg fn rand 0 (errs cfg.max_retries) (hf cfg.max_retries)
      (hr cfg.max_retries)]
    simp
  | succ k ih =>
    intro attempt h
    have hne : attempt ≠ cfg.max_retries := by omega
    rw [retryGo_retry_step cfg fn rand attempt (k + 1) (errs attempt)
      (hf attempt) (hr attempt) hne]
    rw [ih (attempt + 1) (by omega)]
    have hlist : (List.range (k + 1)).map
          (fun i => backoffDelay cfg rand (attempt + i)) =
        backoffDelay cfg rand attempt ::
          (List.range k).map (fun i => backoffDelay cfg rand (attempt + 1 + i)) := by
      rw [List.range_succ_eq_map, List.map_cons, List.map_map]
      simp only [Nat.add_zero]
      congr 1
      apply List.map_congr_left
      intro i _
      simp only [Function.comp_apply]
      congr 1
      omega
    rw [hlist]

/-- C7: against an always-retryably-failing call, `retry_with_backoff`
makes `max_retries + 1` invocations and `max_retries` sleeps; sleep number
`i` equals `min(base_delay * 2^i, max_delay)` scaled by a factor in
`[1/2, 1]` (the factor is `0.5 + random()*0.5` when jitter is on and `1`
otherwise); after exhaustion it raises `RetryableError` wrapping the last
failure's message. -/
theorem retry_with_backoff_spec (cfg : RetryConfig) (fn : Nat → Except PyError α)
    (rand : Nat → ℚ) (errs : Nat → PyError)
    (hf : ∀ n, fn n = Except.error (errs n))
    (hr : ∀ n, retryableCatch (errs n) = true)
    (hrand : ∀ n, 0 ≤ rand n ∧ rand n < 1)
    (hbase : cfg.exponential_base = 2) :
    (retry_with_backoff cfg fn rand).result =
      Except.error (PyError.retryableError
        ("Failed after " ++ toString cfg.max_retries ++ " attempts: "
          ++ (errs cfg.max_retries).msg)) ∧
    (retry_with_backoff cfg fn rand).calls = cfg.max_retries + 1 ∧
    (retry_with_backoff cfg fn rand).sleeps.length = cfg.max_retries ∧
    ∀ i (h : i < (retry_with_backoff cfg fn rand).sleeps.length),
      ∃ c : ℚ, 1/2 ≤ c ∧ c ≤ 1 ∧
        (retry_with_backoff cfg fn rand).sleeps.get ⟨i, h⟩ =
          min (cfg.base_delay * 2 ^ i) cfg.max_delay * c := by
  have hrun := retryGo_allFail cfg fn rand errs hf hr cfg.max_retries 0 (by omega)
  unfold retry_with_backoff
  rw [hrun]
  refine ⟨rfl, rfl, by simp, ?_⟩
  intro i h
  have hget : (((List.range cfg.max_retries).map
      (fun j => backoffDelay cfg rand (0 + j))).get ⟨i, h⟩) =
      backoffDelay cfg rand i := by
    simp only [List.length_map, List.length_range] at h
    simp [List.get_eq_getElem, List.getElem_map, List.getElem_range]
  rw [hget]
  by_cases hj : cfg.jitter
  · refine ⟨1/2 + rand i * (1/2), ?_, ?_, ?_⟩
    · have := (hrand i).1
      nlinarith
    · have := (hrand i).2
      nlinarith
    · unfold backoffDelay
      simp [hj, hbase]
  · refine ⟨1, by norm_num, le_refl 1, ?_⟩
    unfold backoffDelay
    simp [hj, hbase]

/-- Witness for C7: defaults scaled down to `max_retries = 2` against an
always-timing-out call, with the random stream pinned at 0. -/
theorem retry_with_backoff_spec_witness :
    (retry_with_backoff (⟨2, 1, 60, 2, true⟩ : RetryConfig)
        (fun _ => (Except.error (PyError.timeout "t") : Except PyError Unit))
        (fun _ => 0)).result =
      Except.error (PyError.retryableError "Failed after 2 attempts: t") ∧
    (retry_with_backoff (⟨2, 1, 60, 2, true⟩ : RetryConfig)
        (fun _ => (Except.error (PyError.timeout "t") : Except PyError Unit))
        (fun _ => 0)).calls = 3 ∧
    (retry_with_backoff (⟨2, 1, 60, 2, true⟩ : RetryConfig)
        (fun _ => (Except.error (PyError.timeout "t") : Except PyError Unit))
        (fun _ => 0)).sleeps.length = 2 ∧
    ∀ i (h : i < (retry_with_backoff (⟨2, 1, 60, 2, true⟩ : RetryConfig)
        (fun _ => (Except.error (PyError.timeout "t") : Except PyError Unit))
        (fun _ => 0)).sleeps.length),
      ∃ c : ℚ, 1/2 ≤ c ∧ c ≤ 1 ∧
        (retry_with_backoff (⟨2, 1, 60, 2, true⟩ : RetryConfig)
            (fun _ => (Except.error (PyError.timeout "t") : Except PyError Unit))
            (fun _ => 0)).sleeps.get ⟨i, h⟩ =
          min (1 * 2 ^ i) 60 * c :=
  retry_with_backoff_spec ⟨2, 1, 60, 2, true⟩
    (fun _ => Except.error (PyError.timeout "t")) (fun _ => 0)
    (fun _ => PyError.timeout "t") (fun _ => rfl) (fun _ => rfl)
    (fun _ => ⟨le_refl 0, by norm_num⟩) rfl
